import Mathlib

/-!
# HDSTP protocol engine — verification of the specification against the source

Shallow embedding of the HDSTP reliable-transport code (`src/lib.rs`,
`src/transfer.rs`). Machine integers (`u8`, `u32`) are modelled as `Nat`;
byte payloads as `List Nat`; fallible operations (`io::Result`) as
`Except`. Asynchronous routines that first send packets and then wait for
one response are modelled as pure functions from the received
`Option Packet` (with `none` standing for a timeout of the bounded wait)
to the list of packets the routine sends plus its `io::Result` outcome.
Loops (`while retries < 3`, `while retry_count < max_retries`) are
embedded structurally with an explicit fuel argument equal to the number
of remaining permitted iterations, so that every definition evaluates by
kernel reduction.
-/

/-- Popcount of a natural number (models `u8::count_ones` from
`data.iter().map(|&byte| byte.count_ones())` in `check_parity`,
`src/lib.rs` line 43). Structural fuel recursion: `fuel = n` suffices
because `n ≥ bits n` for every `n`. -/
def countOnesAux : Nat → Nat → Nat
  | 0, _ => 0
  | fuel + 1, n => if n = 0 then 0 else n % 2 + countOnesAux fuel (n / 2)

/-- `countOnes n` is the number of set bits of `n`. -/
def countOnes (n : Nat) : Nat := countOnesAux n n

/-- `check_parity` (src/lib.rs lines 42–45): sum the popcounts of all
payload bytes mod 2; return `0b0000` when even and `0b1111` when odd. -/
def check_parity (data : List Nat) : Nat :=
  let ones_count := (data.map countOnes).sum % 2
  if ones_count = 0 then 0b0000 else 0b1111

/-- `PacketType` (src/lib.rs lines 11–24). The discriminant values
(0b0001 … 0b1101) play no role in any claim and are omitted. -/
inductive PacketType where
  | data
  | retransmission
  | syn
  | synAck
  | ack
  | nak
  | fin
  | rst
  deriving DecidableEq

/-- `Packet` (src/lib.rs lines 25–31). -/
structure Packet where
  length : Nat
  packet_type : PacketType
  sequence_no : Nat
  data : List Nat
  parity : Nat
  deriving DecidableEq

/-- `Packet::new` (src/lib.rs lines 34–38): length is payload length + 9,
parity is recomputed from the payload. -/
def Packet.new (packet_type : PacketType) (sequence_no : Nat) (data : List Nat) : Packet :=
  { length := data.length + 9
    packet_type := packet_type
    sequence_no := sequence_no
    data := data
    parity := check_parity data }

/-- Modelled from the spec: `verify(packet) -> bool` "recomputes and
compares" (§4.1). The source calls `data_packet.verify_parity()`
(src/lib.rs line 282) but the method definition is missing from the
sources; this is its spec-faithful model. -/
def Packet.verify_parity (p : Packet) : Bool :=
  check_parity p.data == p.parity

set_option maxRecDepth 100000 in
/-- One-bit flips inside a byte flip the popcount parity: checked
exhaustively over all 256 byte values and 8 bit positions. -/
lemma countOnes_flip_parity :
    ∀ b < 256, ∀ k < 8, countOnes (b ^^^ 2 ^ k) % 2 ≠ countOnes b % 2 := by
  decide

/-- Replacing one list entry by a value of opposite popcount parity flips
the parity of the popcount sum. -/
lemma sum_countOnes_set_parity (P : List Nat) (j : Nat) (b' : Nat)
    (hj : j < P.length)
    (hb : countOnes b' % 2 ≠ countOnes (P.getD j 0) % 2) :
    ((P.set j b').map countOnes).sum % 2 ≠ (P.map countOnes).sum % 2 := by
  induction P generalizing j with
  | nil => simp at hj
  | cons a t ih =>
    cases j with
    | zero =>
      simp only [List.set, List.map_cons, List.sum_cons]
      simp only [List.getD_cons_zero] at hb
      omega
    | succ j' =>
      simp only [List.set, List.map_cons, List.sum_cons]
      simp only [List.getD_cons_succ] at hb
      have hj' : j' < t.length := by simpa using hj
      have := ih j' hj' hb
      omega

/-- `check_parity` values 0 and 15 decode parity of the popcount sum. -/
lemma check_parity_ne_of_parity_ne (P Q : List Nat)
    (h : (P.map countOnes).sum % 2 ≠ (Q.map countOnes).sum % 2) :
    check_parity P ≠ check_parity Q := by
  unfold check_parity
  rcases Nat.mod_two_eq_zero_or_one ((P.map countOnes).sum) with hP | hP <;>
    rcases Nat.mod_two_eq_zero_or_one ((Q.map countOnes).sum) with hQ | hQ <;>
      simp_all

/-- C1 (counterexample): the payload `[0x01]` has an odd number of set
bits, yet `check_parity` returns `0b1111 = 15`, not `0xFF = 255` as the
claim states. -/
theorem check_parity_odd_not_0xFF :
    countOnes 1 % 2 = 1 ∧ check_parity [1] = 15 ∧ (15 : Nat) ≠ 255 := by
  decide

/-- C1 (amended): the integrity byte is `0x00` when the total number of
set bits across all payload bytes is even and `0x0F` (`0b1111`) when it
is odd; no other value is ever produced. -/
theorem check_parity_spec (data : List Nat) :
    (check_parity data = 0 ∨ check_parity data = 15)
    ∧ (check_parity data = 0 ↔ (data.map countOnes).sum % 2 = 0)
    ∧ (check_parity data = 15 ↔ (data.map countOnes).sum % 2 = 1) := by
  unfold check_parity
  rcases Nat.mod_two_eq_zero_or_one ((data.map countOnes).sum) with h | h <;> simp [h]

/-- C8: a packet built by `Packet::new` always passes verification, and
flipping any single bit of the payload changes the computed integrity
byte, so verifying the altered payload against the original integrity
byte fails. -/
theorem parity_single_bit_detection (t : PacketType) (s : Nat) (P : List Nat)
    (j k : Nat) (hj : j < P.length) (hk : k < 8) (hb : P.getD j 0 < 256) :
    (Packet.new t s P).verify_parity = true
    ∧ check_parity (P.set j (P.getD j 0 ^^^ 2 ^ k)) ≠ check_parity P
    ∧ Packet.verify_parity
        { Packet.new t s P with data := P.set j (P.getD j 0 ^^^ 2 ^ k) } = false := by
  have hflip : countOnes (P.getD j 0 ^^^ 2 ^ k) % 2 ≠ countOnes (P.getD j 0) % 2 :=
    countOnes_flip_parity (P.getD j 0) hb k hk
  have hsum := sum_countOnes_set_parity P j (P.getD j 0 ^^^ 2 ^ k) hj hflip
  have hne := check_parity_ne_of_parity_ne _ _ hsum
  refine ⟨?_, hne, ?_⟩
  · simp [Packet.new, Packet.verify_parity]
  · simp only [Packet.verify_parity, Packet.new]
    exact beq_eq_false_iff_ne.mpr hne

/-- C8 (witness): concrete instance with payload `[3]`, flipping bit 0 of
byte 0. -/
theorem parity_single_bit_detection_witness :
    (Packet.new PacketType.data 0 [3]).verify_parity = true
    ∧ check_parity ([3].set 0 ([3].getD 0 0 ^^^ 2 ^ 0)) ≠ check_parity [3]
    ∧ Packet.verify_parity
        { Packet.new PacketType.data 0 [3] with
          data := [3].set 0 ([3].getD 0 0 ^^^ 2 ^ 0) } = false :=
  parity_single_bit_detection PacketType.data 0 [3] 0 0 (by decide) (by decide) (by decide)

/-- `PacketStream` (src/lib.rs lines 47–50): the in-memory channel. The
`Notify` handle has no persistent state relevant to the claims; the
reader's behaviour after being woken depends only on the buffer, which is
modelled as the FIFO list of queued packets. -/
structure PacketStream where
  buffer : List Packet
  deriving DecidableEq

/-- `PacketStream::write` (src/lib.rs lines 60–63): push to the back of
the buffer (and notify one waiting reader). -/
def PacketStream.write (s : PacketStream) (p : Packet) : PacketStream :=
  { buffer := s.buffer ++ [p] }

/-- `PacketStream::read` (src/lib.rs lines 65–74): after
`notify.notified().await` resolves, return `None` if the buffer is empty
at that moment, otherwise pop and return the front packet. The model is
the post-wake computation: first component the returned `Option<Packet>`,
second the stream afterwards. -/
def PacketStream.read (s : PacketStream) : Option Packet × PacketStream :=
  if s.buffer.isEmpty then (none, s)
  else (s.buffer.head?, { buffer := s.buffer.tail })

/-- Which branch of the `tokio::select!` in `read_with_timeout`
(src/lib.rs lines 76–88) completes first: the `sleep(timeout)` arm, or
the `self.read()` arm (i.e. the notification arrived in time). -/
inductive ReadEvent where
  | timeoutFired
  | readCompleted
  deriving DecidableEq

/-- `PacketStream::read_with_timeout` (src/lib.rs lines 76–88): `None`
when the timeout arm wins, otherwise whatever `read` returns. -/
def PacketStream.read_with_timeout (ev : ReadEvent) (s : PacketStream) :
    Option Packet × PacketStream :=
  match ev with
  | .timeoutFired => (none, s)
  | .readCompleted => s.read

/-- C9: whenever the reader is woken by a notification while the buffer
is empty, `read` returns `None` (and leaves the stream unchanged) instead
of continuing to wait for a packet. -/
theorem read_none_on_empty_wake (s : PacketStream) (h : s.buffer = []) :
    s.read = (none, s) := by
  simp [PacketStream.read, h]

/-- C9 (witness): the empty stream. -/
theorem read_none_on_empty_wake_witness :
    PacketStream.read { buffer := [] } = (none, { buffer := [] }) :=
  read_none_on_empty_wake { buffer := [] } rfl

/-- C5 (counterexample): when the read arm completes (no timeout) on an
empty buffer, `read_with_timeout` still returns `None` — so `None` is not
returned only on timeout. -/
theorem read_with_timeout_none_without_timeout :
    (PacketStream.read_with_timeout ReadEvent.readCompleted { buffer := [] }).1 = none
    ∧ ReadEvent.readCompleted ≠ ReadEvent.timeoutFired := by
  constructor
  · rfl
  · decide

/-- C5 (amended): `read_with_timeout` returns `None` exactly when the
timeout fired or the underlying `read` was woken with an empty buffer;
when the read arm completes, the result is the front of the buffer. -/
theorem read_with_timeout_spec (ev : ReadEvent) (s : PacketStream) :
    ((PacketStream.read_with_timeout ev s).1 = none
        ↔ ev = ReadEvent.timeoutFired ∨ s.buffer = [])
    ∧ (PacketStream.read_with_timeout ReadEvent.readCompleted s).1 = s.buffer.head? := by
  constructor
  · cases ev with
    | timeoutFired => simp [PacketStream.read_with_timeout]
    | readCompleted =>
      cases hb : s.buffer with
      | nil => simp [PacketStream.read_with_timeout, PacketStream.read, hb]
      | cons p rest => simp [PacketStream.read_with_timeout, PacketStream.read, hb]
  · cases hb : s.buffer with
    | nil => simp [PacketStream.read_with_timeout, PacketStream.read, hb]
    | cons p rest => simp [PacketStream.read_with_timeout, PacketStream.read, hb]

/-- `io::ErrorKind` — only the kinds the source constructs or tests. -/
inductive IoErrorKind where
  | timedOut
  | invalidData
  | other
  deriving DecidableEq

/-- `io::Error`: a kind plus its message string. -/
structure IoError where
  kind : IoErrorKind
  msg : String
  deriving DecidableEq

/-- Loop body of `TransportProtocol::handle_timeout` (src/lib.rs lines
112–131), embedded with fuel = `3 - retries`, the number of loop
iterations still permitted by `while retries < 3`; `action retries` is
the result of the `retries`-th invocation of the action. Fuel 0 is the
loop exit, returning the trailing error. -/
def handle_timeout_go (action : Nat → Except IoError Unit) :
    Nat → Nat → Except IoError Unit
  | 0, _ => .error ⟨.timedOut, "Operation failed after 3 retries"⟩
  | fuel + 1, retries =>
    match action retries with
    | .ok _ => .ok ()
    | .error e =>
      if e.kind = IoErrorKind.timedOut then handle_timeout_go action fuel (retries + 1)
      else .error e

/-- `TransportProtocol::handle_timeout` (src/lib.rs lines 112–131):
starts with `retries = 0` and a budget of 3 iterations. The `timeout`
argument only governs the inter-attempt sleep and does not affect the
result, so it is not a parameter of the model. -/
def handle_timeout (action : Nat → Except IoError Unit) : Except IoError Unit :=
  handle_timeout_go action 3 0

lemma handle_timeout_go_ok (action : Nat → Except IoError Unit) (fuel r : Nat)
    (h : action r = .ok ()) :
    handle_timeout_go action (fuel + 1) r = .ok () := by
  simp [handle_timeout_go, h]

lemma handle_timeout_go_timeout (action : Nat → Except IoError Unit) (fuel r : Nat)
    (e : IoError) (h : action r = .error e) (hk : e.kind = IoErrorKind.timedOut) :
    handle_timeout_go action (fuel + 1) r = handle_timeout_go action fuel (r + 1) := by
  simp [handle_timeout_go, h, hk]

lemma handle_timeout_go_other (action : Nat → Except IoError Unit) (fuel r : Nat)
    (e : IoError) (h : action r = .error e) (hk : e.kind ≠ IoErrorKind.timedOut) :
    handle_timeout_go action (fuel + 1) r = .error e := by
  simp [handle_timeout_go, h, hk]

/-- C2: `handle_timeout` retries only on timeout-kind failures, up to 3
total attempts: (i) three consecutive timeout failures yield the
retries-exhausted timed-out error; (ii) a non-timeout failure at attempt
`k` (preceded by only timeouts) is returned immediately; (iii) a success
at attempt `k` (preceded by only timeouts) yields success. -/
theorem handle_timeout_spec (action : Nat → Except IoError Unit) :
    ((∀ i, i < 3 → ∃ e, action i = .error e ∧ e.kind = IoErrorKind.timedOut) →
        handle_timeout action =
          .error ⟨IoErrorKind.timedOut, "Operation failed after 3 retries"⟩)
    ∧ (∀ k e, k < 3 →
        (∀ i, i < k → ∃ e2, action i = .error e2 ∧ e2.kind = IoErrorKind.timedOut) →
        action k = .error e → e.kind ≠ IoErrorKind.timedOut →
        handle_timeout action = .error e)
    ∧ (∀ k, k < 3 →
        (∀ i, i < k → ∃ e2, action i = .error e2 ∧ e2.kind = IoErrorKind.timedOut) →
        action k = .ok () → handle_timeout action = .ok ()) := by
  refine ⟨?_, ?_, ?_⟩
  · intro hall
    obtain ⟨e0, h0, h0k⟩ := hall 0 (by omega)
    obtain ⟨e1, h1, h1k⟩ := hall 1 (by omega)
    obtain ⟨e2, h2, h2k⟩ := hall 2 (by omega)
    unfold handle_timeout
    rw [handle_timeout_go_timeout action 2 0 e0 h0 h0k,
      handle_timeout_go_timeout action 1 1 e1 h1 h1k,
      handle_timeout_go_timeout action 0 2 e2 h2 h2k]
    rfl
  · intro k e hk hpre hke hkind
    unfold handle_timeout
    interval_cases k
    · exact handle_timeout_go_other action 2 0 e hke hkind
    · obtain ⟨e0, h0, h0k⟩ := hpre 0 (by omega)
      rw [handle_timeout_go_timeout action 2 0 e0 h0 h0k]
      exact handle_timeout_go_other action 1 1 e hke hkind
    · obtain ⟨e0, h0, h0k⟩ := hpre 0 (by omega)
      obtain ⟨e1, h1, h1k⟩ := hpre 1 (by omega)
      rw [handle_timeout_go_timeout action 2 0 e0 h0 h0k,
        handle_timeout_go_timeout action 1 1 e1 h1 h1k]
      exact handle_timeout_go_other action 0 2 e hke hkind
  · intro k hk hpre hke
    unfold handle_timeout
    interval_cases k
    · exact handle_timeout_go_ok action 2 0 hke
    · obtain ⟨e0, h0, h0k⟩ := hpre 0 (by omega)
      rw [handle_timeout_go_timeout action 2 0 e0 h0 h0k]
      exact handle_timeout_go_ok action 1 1 hke
    · obtain ⟨e0, h0, h0k⟩ := hpre 0 (by omega)
      obtain ⟨e1, h1, h1k⟩ := hpre 1 (by omega)
      rw [handle_timeout_go_timeout action 2 0 e0 h0 h0k,
        handle_timeout_go_timeout action 1 1 e1 h1 h1k]
      exact handle_timeout_go_ok action 0 2 hke

/-- C2 (witness): an action that always times out exhausts all 3 attempts
and returns the retries-exhausted error. -/
theorem handle_timeout_spec_witness :
    handle_timeout (fun _ => .error ⟨IoErrorKind.timedOut, "t"⟩) =
      .error ⟨IoErrorKind.timedOut, "Operation failed after 3 retries"⟩ :=
  (handle_timeout_spec (fun _ => .error ⟨IoErrorKind.timedOut, "t"⟩)).1
    (fun _ _ => ⟨⟨IoErrorKind.timedOut, "t"⟩, rfl, rfl⟩)

/-- `Connection`: the per-role session state. The struct declaration
itself is absent from the sources (only `Connection::new()` calls and
field accesses appear); its fields `client_isn` and `server_isn` are
taken from the accesses in `Client::handshake` and `Server::handshake`
(src/lib.rs lines 148, 161, 255, 258). -/
structure Connection where
  client_isn : Nat
  server_isn : Nat
  deriving DecidableEq

/-- The response-handling task spawned inside `Client::handshake`
(src/lib.rs lines 156–172), as a function of the packet obtained from
`receive_packet` (`none` = timeout). Returns the packets the task sends,
the task's `io::Result`, and the updated connection. A non-SYN-ACK packet
yields `Err(InvalidData)`; on SYN-ACK the server ISN is recorded and an
ACK with sequence `server_isn + 1` is sent. -/
def Client.handshake_task (conn : Connection) (response : Option Packet) :
    List Packet × Except IoError Unit × Connection :=
  match response with
  | some p =>
    if p.packet_type ≠ PacketType.synAck then
      ([], .error ⟨.invalidData, "Expected SYN-ACK"⟩, conn)
    else
      let conn' := { conn with server_isn := p.sequence_no }
      ([Packet.new .ack (conn'.server_isn + 1) []], .ok (), conn')
  | none => ([], .error ⟨.timedOut, "Handshake timed out"⟩, conn)

/-- The result `Client::handshake` (src/lib.rs lines 147–177) reports to
its caller: the closure passed to `handle_timeout` spawns the
response-handling task with `tokio::spawn` (discarding its `JoinHandle`)
and immediately returns `Ok(())`, so `handle_timeout` sees a
always-succeeding action. -/
def Client.handshake_result : Except IoError Unit :=
  handle_timeout (fun _ => .ok ())

/-- The packets `Client::handshake` sends: the initial SYN with the
client ISN (src/lib.rs line 148), then whatever the spawned task sends. -/
def Client.handshake_sends (conn : Connection) (response : Option Packet) : List Packet :=
  Packet.new .syn conn.client_isn [] :: (Client.handshake_task conn response).1

/-- C6: receiving an ACK (not SYN-ACK) while awaiting the handshake
response makes the spawned task fail with `InvalidData`, but the result
`Client::handshake` reports to its caller is still `Ok(())` — the
protocol violation is computed inside the discarded `tokio::spawn` and
never propagates. -/
theorem handshake_violation_not_reported :
    (Client.handshake_task ⟨0, 0⟩ (some (Packet.new PacketType.ack 7 []))).2.1 =
        .error ⟨IoErrorKind.invalidData, "Expected SYN-ACK"⟩
    ∧ Client.handshake_result = .ok () := by
  constructor
  · rfl
  · rfl

/-- The response-handling task spawned inside `Client::send_data`
(src/lib.rs lines 188–200): every received response — ACK, NAK or
anything else — is only logged and the task returns `Ok(())`; only a
timeout (`none`) produces an error. No packet is sent by the task. -/
def Client.send_data_task (response : Option Packet) :
    List Packet × Except IoError Unit :=
  match response with
  | some p =>
    match p.packet_type with
    | .ack => ([], .ok ())
    | .nak => ([], .ok ())
    | _ => ([], .ok ())
  | none => ([], .error ⟨.timedOut, "Data transmission timed out"⟩)

/-- The packets `Client::send_data` (src/lib.rs lines 179–205) sends: the
DATA packet with sequence `client_isn + 1` (lines 180–183), followed by
whatever the spawned response task sends. -/
def Client.send_data_sends (client_isn : Nat) (data : List Nat)
    (response : Option Packet) : List Packet :=
  Packet.new .data (client_isn + 1) data :: (Client.send_data_task response).1

/-- C4: when the response to the DATA packet is a NAK, `Client::send_data`
sends no RETRANSMISSION packet — all it ever sends is the original DATA
packet (the NAK arm only prints "retransmitting DATA"). -/
theorem send_data_nak_no_retransmission :
    Client.send_data_sends 0 [1, 2] (some (Packet.new PacketType.nak 1 []))
      = [Packet.new PacketType.data 1 [1, 2]]
    ∧ (Client.send_data_task (some (Packet.new PacketType.nak 1 []))).2 = .ok () := by
  constructor
  · rfl
  · rfl

/-- The response-handling task spawned inside `Server::handshake`
(src/lib.rs lines 248–266): a non-SYN packet yields `Err(InvalidData)`;
on SYN the client ISN is recorded and a SYN-ACK with sequence
`client_isn + 1` is sent — no random local ISN is generated anywhere. -/
def Server.handshake_task (conn : Connection) (received : Option Packet) :
    List Packet × Except IoError Unit × Connection :=
  match received with
  | some p =>
    if p.packet_type ≠ PacketType.syn then
      ([], .error ⟨.invalidData, "Expected SYN"⟩, conn)
    else
      let conn' := { conn with client_isn := p.sequence_no }
      ([Packet.new .synAck (conn'.client_isn + 1) []], .ok (), conn')
  | none => ([], .error ⟨.timedOut, "Handshake timed out"⟩, conn)

/-- C7 (counterexample): the sequence number carried by the SYN-ACK is
the initiator's ISN plus one (5 ↦ 6, 10 ↦ 11) — a value derived from the
initiator's sequence number, not an independently chosen local ISN. -/
theorem server_synack_seq_derived_from_client :
    ((Server.handshake_task ⟨0, 0⟩ (some (Packet.new PacketType.syn 5 []))).1.map
        Packet.sequence_no = [6])
    ∧ ((Server.handshake_task ⟨0, 0⟩ (some (Packet.new PacketType.syn 10 []))).1.map
        Packet.sequence_no = [11]) := by
  constructor
  · rfl
  · rfl

/-- C7 (amended): on receiving a SYN the responder records the
initiator's sequence number as `client_isn` and sends a SYN-ACK whose
sequence number is `client_isn + 1`; no random local initial sequence
number is chosen. -/
theorem server_handshake_spec (conn : Connection) (p : Packet)
    (h : p.packet_type = PacketType.syn) :
    (Server.handshake_task conn (some p)).1
        = [Packet.new PacketType.synAck (p.sequence_no + 1) []]
    ∧ (Server.handshake_task conn (some p)).2.2.client_isn = p.sequence_no
    ∧ (Server.handshake_task conn (some p)).2.1 = .ok () := by
  simp [Server.handshake_task, h]

/-- C7 (amended, witness): concrete SYN with ISN 5. -/
theorem server_handshake_spec_witness :
    (Server.handshake_task ⟨0, 0⟩ (some (Packet.new PacketType.syn 5 []))).1
        = [Packet.new PacketType.synAck 6 []]
    ∧ (Server.handshake_task ⟨0, 0⟩
        (some (Packet.new PacketType.syn 5 []))).2.2.client_isn = 5
    ∧ (Server.handshake_task ⟨0, 0⟩ (some (Packet.new PacketType.syn 5 []))).2.1
        = .ok () :=
  server_handshake_spec ⟨0, 0⟩ (Packet.new PacketType.syn 5 []) rfl

/-- The receive task spawned inside `Server::receive_data` (src/lib.rs
lines 276–294): only packets of kind DATA are examined; a DATA packet
passing `verify_parity` elicits an ACK with the same sequence number, a
failing one a NAK with the same sequence number; every other kind —
including RETRANSMISSION — and a timeout elicit nothing, and the task
always returns `Ok(())`. No received payload is stored anywhere. -/
def Server.receive_data_task (received : Option Packet) :
    List Packet × Except IoError Unit :=
  match received with
  | some p =>
    if p.packet_type = PacketType.data then
      if p.verify_parity then ([Packet.new .ack p.sequence_no []], .ok ())
      else ([Packet.new .nak p.sequence_no []], .ok ())
    else ([], .ok ())
  | none => ([], .ok ())

/-- C3 (counterexample): a RETRANSMISSION packet with valid integrity is
ignored by `Server::receive_data` — no ACK (and no NAK) is sent, contrary
to the claim that RETRANSMISSION packets are verified and acknowledged. -/
theorem receive_data_ignores_retransmission :
    (Packet.new PacketType.retransmission 5 [1, 2]).verify_parity = true
    ∧ (Server.receive_data_task
        (some (Packet.new PacketType.retransmission 5 [1, 2]))).1 = [] := by
  constructor
  · rfl
  · rfl

/-- C3 (amended): only DATA packets are integrity-checked: an ACK
carrying the packet's sequence number is sent exactly when the kind is
DATA and the parity verifies, a NAK exactly when the kind is DATA and the
parity fails, and nothing at all for every other kind (RETRANSMISSION
included); no received payload is appended to any accumulator and no
`peer_sequence` exists to advance. -/
theorem receive_data_spec (p : Packet) :
    ((Server.receive_data_task (some p)).1 = [Packet.new PacketType.ack p.sequence_no []]
        ↔ p.packet_type = PacketType.data ∧ p.verify_parity = true)
    ∧ ((Server.receive_data_task (some p)).1 = [Packet.new PacketType.nak p.sequence_no []]
        ↔ p.packet_type = PacketType.data ∧ p.verify_parity = false)
    ∧ ((Server.receive_data_task (some p)).1 = [] ↔ p.packet_type ≠ PacketType.data)
    ∧ (Server.receive_data_task (some p)).2 = .ok () := by
  by_cases hp : p.packet_type = PacketType.data
  · by_cases hv : p.verify_parity = true
    · simp [Server.receive_data_task, hp, hv, Packet.new]
    · simp only [Bool.not_eq_true] at hv
      simp [Server.receive_data_task, hp, hv, Packet.new]
  · simp [Server.receive_data_task, hp]

/-- The error type of the caller-facing transfer wrapper, tagging which
return site of `send_with_retry` (src/transfer.rs lines 62–82) produced
the error: `attemptErr e` is the `return Err(e)` inside the loop
(propagating the failing attempt's `io::Error`), `maxRetriesExceeded` is
the trailing `Err(io::Error::new(Other, "Max retries exceeded"))` after
the loop. -/
inductive TransferError where
  | attemptErr (e : IoError)
  | maxRetriesExceeded
  deriving DecidableEq

/-- Loop body of `send_with_retry` (src/transfer.rs lines 66–79),
embedded with fuel = the number of iterations still permitted by
`while retry_count < max_retries`; `attempts i` is the outcome of the
`i`-th `transfer.send_file(data.clone())` call. On failure the counter is
incremented; if it is still below `max_retries` the loop continues after
a fixed 1-second sleep, otherwise the attempt's own error is returned.
Fuel 0 is the loop exit, reaching the trailing error. -/
def send_with_retry_go (attempts : Nat → Except IoError Unit) (max_retries : Nat) :
    Nat → Nat → Except TransferError Unit
  | 0, _ => .error .maxRetriesExceeded
  | fuel + 1, retry_count =>
    if retry_count < max_retries then
      match attempts retry_count with
      | .ok _ => .ok ()
      | .error e =>
        if retry_count + 1 < max_retries then
          send_with_retry_go attempts max_retries fuel (retry_count + 1)
        else .error (.attemptErr e)
    else .error .maxRetriesExceeded

/-- `send_with_retry` (src/transfer.rs lines 62–82): starts with
`retry_count = 0`; `max_retries` iterations suffice as fuel because each
iteration increments `retry_count`. -/
def send_with_retry (attempts : Nat → Except IoError Unit) (max_retries : Nat) :
    Except TransferError Unit :=
  send_with_retry_go attempts max_retries max_retries 0

lemma send_with_retry_go_spec (attempts : Nat → Except IoError Unit)
    (max_retries : Nat) (fuel retry_count : Nat)
    (hlt : retry_count < max_retries) (hfuel : fuel = max_retries - retry_count) :
    send_with_retry_go attempts max_retries fuel retry_count = .ok ()
    ∨ ∃ e, attempts (max_retries - 1) = .error e
        ∧ send_with_retry_go attempts max_retries fuel retry_count
            = .error (.attemptErr e) := by
  induction fuel generalizing retry_count with
  | zero => omega
  | succ fuel ih =>
    cases hatt : attempts retry_count with
    | ok u =>
      left
      simp [send_with_retry_go, hlt, hatt]
    | error e =>
      by_cases hnext : retry_count + 1 < max_retries
      · have hred : send_with_retry_go attempts max_retries (fuel + 1) retry_count
            = send_with_retry_go attempts max_retries fuel (retry_count + 1) := by
          simp [send_with_retry_go, hlt, hatt, hnext]
        rw [hred]
        exact ih (retry_count + 1) hnext (by omega)
      · right
        have hlast : retry_count = max_retries - 1 := by omega
        refine ⟨e, hlast ▸ hatt, ?_⟩
        simp [send_with_retry_go, hlt, hatt, hnext]

/-- C10: for `max_retries ≥ 1`, `send_with_retry` returns either the
success of some attempt or the `io::Error` of its final attempt, and the
trailing "Max retries exceeded" branch after the loop is unreachable; the
trailing error is returned exactly when `max_retries = 0`. -/
theorem send_with_retry_spec (attempts : Nat → Except IoError Unit)
    (max_retries : Nat) (h : 1 ≤ max_retries) :
    (send_with_retry attempts max_retries = .ok ()
      ∨ ∃ e, attempts (max_retries - 1) = .error e
          ∧ send_with_retry attempts max_retries = .error (.attemptErr e))
    ∧ send_with_retry attempts max_retries ≠ .error .maxRetriesExceeded
    ∧ send_with_retry attempts 0 = .error .maxRetriesExceeded := by
  have hmain : send_with_retry attempts max_retries = .ok ()
      ∨ ∃ e, attempts (max_retries - 1) = .error e
          ∧ send_with_retry attempts max_retries = .error (.attemptErr e) :=
    send_with_retry_go_spec attempts max_retries max_retries 0 (by omega) (by omega)
  refine ⟨hmain, ?_, rfl⟩
  rcases hmain with hok | ⟨e, _, herr⟩
  · rw [hok]
    intro hc
    exact Except.noConfusion hc
  · rw [herr]
    intro hc
    simp at hc

/-- C10 (witness): a single always-failing attempt with `max_retries = 1`
returns that attempt's error, not the trailing branch. -/
theorem send_with_retry_spec_witness :
    (send_with_retry (fun _ => .error ⟨IoErrorKind.timedOut, "t"⟩) 1 = .ok ()
      ∨ ∃ e, (Except.error ⟨IoErrorKind.timedOut, "t"⟩ : Except IoError Unit)
            = .error e
          ∧ send_with_retry (fun _ => .error ⟨IoErrorKind.timedOut, "t"⟩) 1
            = .error (.attemptErr e))
    ∧ send_with_retry (fun _ => .error ⟨IoErrorKind.timedOut, "t"⟩) 1
        ≠ .error .maxRetriesExceeded
    ∧ send_with_retry (fun _ => .error ⟨IoErrorKind.timedOut, "t"⟩) 0
        = .error .maxRetriesExceeded :=
  send_with_retry_spec (fun _ => .error ⟨IoErrorKind.timedOut, "t"⟩) 1 (by omega)
